import Mathlib

/-!
Verification development for the caretaker-monitoring browser frontend.

The repository consists of five DOM-wired UI modules; this file gives a shallow
embedding of the logic the testable properties talk about:

* the alert-capable audio monitor (detection / alert thresholds, per-label
  debounce state, the bounded detected-event list, recording-stream lifecycle);
* the fall-detection upload status-polling loop;
* the face-registration capture flow (timeout handling, button recovery);
* the registration form (recipient validation, JS `parseInt` semantics, the
  per-recipient report-upload loop).

Scores are modelled as rationals, times as natural-number milliseconds.  DOM
rendering, network transport and media devices are external; the embedding
keeps exactly the state and branching of the source functions.
-/

/-! ### Audio monitor: thresholds and the detected-event list -/

/-- Minimum classifier confidence for the detection pipeline
(source: `const DETECTION_THRESHOLD = 0.78`). -/
def DETECTION_THRESHOLD : ℚ := mkRat 78 100

/-- Minimum classifier confidence for an intrusive alert
(source: `const ALERT_THRESHOLD = 0.90`). -/
def ALERT_THRESHOLD : ℚ := mkRat 90 100

/-- One row of the detected-event list; `addDetectedEvent(label, confidence)`
renders the current time, the label and the confidence. -/
structure DetEvent where
  time : Nat
  label : String
  confidence : ℚ
deriving Repr, DecidableEq

/-- The eviction loop of `addDetectedEvent`:
`while (detectedEventList.children.length > 10) removeChild(lastChild)`. -/
def trimTo10 {α : Type} (l : List α) : List α :=
  if _h : 10 < l.length then trimTo10 l.dropLast else l
termination_by l.length
decreasing_by
  simp only [List.length_dropLast]
  omega

/-- `addDetectedEvent`: the new event element is inserted before the first child
(most-recent-first), then entries past capacity 10 are evicted from the end. -/
def addDetectedEvent (e : DetEvent) (l : List DetEvent) : List DetEvent :=
  trimTo10 (e :: l)

/-- Replay a sequence of `addDetectedEvent` calls starting from the empty list
(the list the page starts with). -/
def addAllEvents (evs : List DetEvent) : List DetEvent :=
  evs.foldl (fun l e => addDetectedEvent e l) []

/-! ### Audio monitor: per-label detection state (alert-capable variant)

The module keeps, for each tracked label (`cough`, `snore`), the fields
`detectionActive[type]`, `detectionStartTime[type]` and the pending
`setTimeout` handle `detectionTimeouts[type]`.  The timeout scheduled at each
`handleDetection` call fires 2000 ms later and clears the active flag and the
start time; we record the time of the last `handleDetection` call and apply the
pending reset lazily when the next classifier callback arrives. -/

structure DetState where
  detectionActive : Bool
  detectionStartTime : Option Nat
  /-- Time of the last `handleDetection` call for this label, if any; the
  pending 2000 ms reset timer is re-armed at each such call. -/
  lastCallTime : Option Nat
  /-- The shared detected-event list as seen through this label's appends. -/
  events : List DetEvent
  /-- Instrumentation: number of `addDetectedEvent` invocations so far. -/
  eventsAppended : Nat
deriving Repr, DecidableEq

def initDetState : DetState :=
  { detectionActive := false, detectionStartTime := none, lastCallTime := none,
    events := [], eventsAppended := 0 }

/-- The alert guard of `handleDetection`:
`score >= ALERT_THRESHOLD` and
`!detectionActive[type] || (currentTime - detectionStartTime[type]) > 1000`.
A `null` start time coerces to `0` in the JS subtraction, hence `Option.getD 0`;
the subtraction is carried out in `ℤ` as in JS arithmetic. -/
def alertFires (st : DetState) (t : Nat) (score : ℚ) : Bool :=
  decide (ALERT_THRESHOLD ≤ score) &&
    (!st.detectionActive ||
      decide ((1000 : ℤ) < (t : ℤ) - (st.detectionStartTime.getD 0 : Nat)))

/-- `handleDetection(type, score)` for one label at time `t`: when the alert
guard passes it sets the active flag and start time, shows the alert, appends a
`DetEvent` and starts a 3-second recording; in every case it then clears and
re-arms the 2000 ms reset timer (modelled by `lastCallTime := some t`).
Returns the updated state and whether the alert fired. -/
def handleDetection (st : DetState) (label : String) (t : Nat) (score : ℚ) :
    DetState × Bool :=
  let fires := alertFires st t score
  let st1 :=
    if fires then
      { st with detectionActive := true, detectionStartTime := some t,
                events := addDetectedEvent ⟨t, label, score⟩ st.events,
                eventsAppended := st.eventsAppended + 1 }
    else st
  ({ st1 with lastCallTime := some t }, fires)

/-- Apply the pending `setTimeout(..., 2000)` reset scheduled at the last
`handleDetection` call: if the next callback arrives at time `t` at least
2000 ms later, the timer has already fired, clearing `detectionActive` and
`detectionStartTime`. -/
def applyPendingTimeout (st : DetState) (t : Nat) : DetState :=
  match st.lastCallTime with
  | none => st
  | some tc =>
      if tc + 2000 ≤ t then
        { st with detectionActive := false, detectionStartTime := none }
      else st

/-- Result of one classifier callback for one tracked label. -/
structure StepResult where
  state : DetState
  /-- Whether the detection pipeline fired (`handleDetection` was invoked). -/
  detected : Bool
  /-- Whether the intrusive alert fired. -/
  alerted : Bool

/-- One classifier callback for one tracked label: the `model.listen` callback
invokes `handleDetection(type, scoresByLabel[type])` iff the label's score
reaches `DETECTION_THRESHOLD`. -/
def callbackStep (st : DetState) (label : String) (t : Nat) (score : ℚ) :
    StepResult :=
  let st1 := applyPendingTimeout st t
  if DETECTION_THRESHOLD ≤ score then
    let r := handleDetection st1 label t score
    ⟨r.1, true, r.2⟩
  else ⟨st1, false, false⟩

/-- State before the `n`-th classifier callback of a per-label trace `tr`,
where `tr n = (Date.now() at the n-th callback, score of the label)`. -/
def detStateAt (label : String) (tr : Nat → Nat × ℚ) : Nat → DetState
  | 0 => initDetState
  | n + 1 => (callbackStep (detStateAt label tr n) label (tr n).1 (tr n).2).state

/-- Whether the detection pipeline fired at the `n`-th callback. -/
def detectedAt (label : String) (tr : Nat → Nat × ℚ) (n : Nat) : Bool :=
  (callbackStep (detStateAt label tr n) label (tr n).1 (tr n).2).detected

/-- Whether the intrusive alert fired at the `n`-th callback. -/
def alertAt (label : String) (tr : Nat → Nat × ℚ) (n : Nat) : Bool :=
  (callbackStep (detStateAt label tr n) label (tr n).1 (tr n).2).alerted

/-- Whether a `DetEvent` was appended at the `n`-th callback (the invocation
counter advanced). -/
def appendedAt (label : String) (tr : Nat → Nat × ℚ) (n : Nat) : Bool :=
  decide ((detStateAt label tr (n + 1)).eventsAppended =
    (detStateAt label tr n).eventsAppended + 1)

/-- Callback times are non-decreasing (`Date.now()` is monotone across the
callback sequence). -/
def TraceMono (tr : Nat → Nat × ℚ) : Prop :=
  ∀ m n : Nat, m ≤ n → (tr m).1 ≤ (tr n).1

/-- The run-time invariant of the per-label debounce state, after `n` callbacks:
when active, the recorded start time is the time of the most recent alert; when
inactive, every past alert was followed by an expired 2000 ms reset; the time of
any past alert is bounded by the last `handleDetection` call time. -/
def DetInv (label : String) (tr : Nat → Nat × ℚ) (n : Nat) : Prop :=
  ((detStateAt label tr n).detectionActive = true →
    ∃ j, j < n ∧ alertAt label tr j = true ∧
      (detStateAt label tr n).detectionStartTime = some (tr j).1 ∧
      ∀ k, j < k → k < n → alertAt label tr k = false) ∧
  ((detStateAt label tr n).detectionActive = false →
    ∀ j, j < n → alertAt label tr j = true →
      ∃ m, m < n ∧ (tr j).1 + 2000 ≤ (tr m).1) ∧
  (∀ j, j < n → alertAt label tr j = true →
    ∃ tc, (detStateAt label tr n).lastCallTime = some tc ∧ (tr j).1 ≤ tc)

/-- The simple (non-alert) audio-monitor variant logs an event exactly when the
top score passes the threshold:
`if (maxScore >= DETECTION_THRESHOLD) addDetectedEvent(label, maxScore)`. -/
def simpleVariantLogs (maxScore : ℚ) : Bool :=
  decide (DETECTION_THRESHOLD ≤ maxScore)

/-- Concrete trace used to exercise the alert path: a 0.95-confidence score
every 2000 ms. -/
def alertTrace : Nat → Nat × ℚ := fun n => (2000 * n + 1, mkRat 95 100)

/-- Concrete trace whose scores sit between the detection and alert
thresholds. -/
def midScoreTrace : Nat → Nat × ℚ := fun n => (1000 * n + 1, mkRat 85 100)

/-! ### Audio monitor: media-stream lifecycle

Stream acquisitions and releases performed by the audio-monitoring module.
Each granted `getUserMedia({audio:true})` stream holds one live audio
`MediaStreamTrack` until `track.stop()` is called on it; closing an
`AudioContext` or disconnecting a `MediaStreamSource` node does not stop the
track.  The module's paths:

* `setupAudioProcessing` (run from `initAudioMonitoring` at page load) acquires
  a microphone stream and never stops it;
* `toggleAudioMonitoring` in the stop branch runs `microphone.disconnect()` and
  `audioContext.close()` — no `track.stop()` — and in the start branch creates
  a fresh `AudioContext` and acquires another microphone stream;
* `saveDetectionRecording` acquires a further stream for the 3-second clip and
  stops its tracks when the recording timer fires. -/

structure AudioMonitorRes where
  /-- Live microphone streams acquired by `setupAudioProcessing` or the start
  branch of `toggleAudioMonitoring` (their tracks are never stopped). -/
  monitorStreams : Nat
  /-- Live streams acquired by `saveDetectionRecording` whose 3-second stop
  timer has not fired yet. -/
  recordingStreams : Nat
  isListening : Bool
  /-- Whether the current `AudioContext` is closed (`true` when none is open). -/
  contextClosed : Bool
deriving Repr, DecidableEq

inductive AudioOp where
  /-- `setupAudioProcessing`'s `getUserMedia` resolves (page-load grant). -/
  | initSetup
  /-- A click on the Start/Stop Listening button (`toggleAudioMonitoring`). -/
  | toggleClick
  /-- `saveDetectionRecording` acquires its recording stream. -/
  | recordStart
  /-- The 3-second recording timer fires:
  `mediaRecorder.stop(); stream.getTracks().forEach(track => track.stop())`. -/
  | recordStop
deriving Repr, DecidableEq

def audioStep (st : AudioMonitorRes) (op : AudioOp) : AudioMonitorRes :=
  match op with
  | .initSetup =>
      { st with monitorStreams := st.monitorStreams + 1, contextClosed := false }
  | .toggleClick =>
      if st.isListening then
        -- stop branch: `microphone.disconnect(); await audioContext.close()`;
        -- the microphone stream's tracks are left running.
        { st with isListening := false, contextClosed := true }
      else
        -- start branch: `new AudioContext()`, then another `getUserMedia`.
        { st with isListening := true, contextClosed := false,
                  monitorStreams := st.monitorStreams + 1 }
  | .recordStart => { st with recordingStreams := st.recordingStreams + 1 }
  | .recordStop => { st with recordingStreams := st.recordingStreams - 1 }

/-- Page just loaded: no streams, no open context, not listening. -/
def audioResInit : AudioMonitorRes :=
  { monitorStreams := 0, recordingStreams := 0, isListening := false,
    contextClosed := true }

def runAudio (ops : List AudioOp) : AudioMonitorRes :=
  ops.foldl audioStep audioResInit

/-- Number of live audio `MediaStreamTrack` objects held by the audio-monitor
component (one per unstopped stream). -/
def activeAudioTracks (st : AudioMonitorRes) : Nat :=
  st.monitorStreams + st.recordingStreams

/-! ### Face registration: `captureFace` -/

/-- UI state touched by `FaceRegistration.captureFace`. -/
structure FaceRegState where
  modelsLoaded : Bool
  isFaceCaptured : Bool
  captureDisabled : Bool
  captureLabel : String
  statusMsg : String
  statusType : String
  descriptorValue : String
  /-- `true` while the live video element is shown (instead of the canvas). -/
  videoVisible : Bool
deriving Repr, DecidableEq

/-- Outcome of the `Promise.race` between face detection and the 20-second
rejection timer. -/
inductive CaptureOutcome where
  /-- Detection resolved with a face; `d` is the serialized descriptor. -/
  | found (d : String)
  /-- Detection resolved `null` / `undefined` (no face). -/
  | noFace
  /-- The 20-second timer rejected first (`Error('Face detection timeout')`). -/
  | timedOut
  /-- Any other rejection. -/
  | otherError
deriving Repr, DecidableEq

/-- The 20-second bound on descriptor extraction
(source: `setTimeout(() => reject(new Error('Face detection timeout')), 20000)`). -/
def FACE_DETECTION_TIMEOUT_MS : Nat := 20000

def timeoutStatusMsg : String :=
  "❌ Face detection took too long. Try moving closer to the camera and ensure good lighting, then try again."

def noFaceStatusMsg : String :=
  "❌ No face detected. Please ensure your face is visible and well-lit."

/-- `FaceRegistration.captureFace`, as a function of the detection outcome.
The early return fires when models are not loaded; otherwise the button is
disabled and relabelled `Detecting...`, the outcome is handled in the
`try`/`catch`, and the `finally` block re-enables the button and restores its
label when no face was captured. -/
def captureFace (st : FaceRegState) (out : CaptureOutcome) : FaceRegState :=
  if st.modelsLoaded = false then
    { st with statusMsg := "❌ Face models not loaded yet", statusType := "error" }
  else
    let st1 := { st with
      statusMsg := "🔍 Detecting face... Please look at the camera",
      statusType := "info", captureDisabled := true, captureLabel := "Detecting..." }
    let st2 :=
      match out with
      | .found d =>
          { st1 with descriptorValue := d, isFaceCaptured := true,
                     statusMsg := "✅ Face captured successfully! The system will recognize you for monitoring.",
                     statusType := "success", videoVisible := false }
      | .noFace => { st1 with statusMsg := noFaceStatusMsg, statusType := "error" }
      | .timedOut => { st1 with statusMsg := timeoutStatusMsg, statusType := "error" }
      | .otherError =>
          { st1 with statusMsg := "❌ Error capturing face. Please try again.",
                     statusType := "error" }
    let st3 := { st2 with captureDisabled := false }
    if st3.isFaceCaptured = false then
      { st3 with captureLabel := "📷 Capture Face" }
    else st3

/-- A ready-to-capture state (models loaded, nothing captured yet). -/
def faceRegReady : FaceRegState :=
  { modelsLoaded := true, isFaceCaptured := false, captureDisabled := false,
    captureLabel := "📷 Capture Face", statusMsg := "Camera ready - Click \"Capture Face\" when ready",
    statusType := "info", descriptorValue := "", videoVisible := true }

/-! ### Registration form: recipient validation and submission -/

/-- JS digit value of a character (decimal and hexadecimal digits). -/
def digitVal (c : Char) : Nat :=
  if c.isDigit then c.toNat - 48
  else if 'a' ≤ c ∧ c ≤ 'f' then c.toNat - 87
  else if 'A' ≤ c ∧ c ≤ 'F' then c.toNat - 55
  else 0

/-- Whether `c` is a hexadecimal digit. -/
def isHexDigitChar (c : Char) : Bool :=
  c.isDigit || (decide ('a' ≤ c) && decide (c ≤ 'f')) ||
    (decide ('A' ≤ c) && decide (c ≤ 'F'))

/-- Whether `c` is a digit of the given radix (10 or 16). -/
def isRadixDigitChar (radix : Nat) (c : Char) : Bool :=
  if radix = 16 then isHexDigitChar c else c.isDigit

/-- JS `parseInt(s)` (radix unspecified): skip leading whitespace, read an
optional sign, detect a `0x`/`0X` prefix, consume the maximal run of radix
digits; `none` models `NaN` (no digits consumed). -/
def jsParseInt (s : String) : Option Int :=
  let cs0 := s.toList.dropWhile Char.isWhitespace
  let signed : Int × List Char :=
    match cs0 with
    | '-' :: r => (-1, r)
    | '+' :: r => (1, r)
    | r => (1, r)
  let based : Nat × List Char :=
    match signed.2 with
    | '0' :: 'x' :: r => (16, r)
    | '0' :: 'X' :: r => (16, r)
    | r => (10, r)
  let ds := based.2.takeWhile (isRadixDigitChar based.1)
  if ds.isEmpty then none
  else some (signed.1 * (ds.foldl (fun a c => a * based.1 + digitVal c) 0 : Nat))

/-- `NaN` test on a parse result: `isNaN(recipient.age)`. -/
def jsIsNaN : Option Int → Bool
  | none => true
  | some _ => false

/-- JS falsiness of a parse result: `!recipient.age` is true for `NaN` and `0`. -/
def jsFalsyInt : Option Int → Bool
  | none => true
  | some n => n == 0

/-- Values read from one `.care-recipient` block (all raw input strings;
`ageValue` is the text fed to `parseInt`). -/
structure RecipientForm where
  full_name : String
  email : String
  phone_number : String
  ageValue : String
  gender : String
  condition : String
deriving Repr, DecidableEq

/-- Per-recipient validation of the submit handler, in source order: the gender
guard runs first, then name, email, phone (`!phone || phone.length !== 10`) and
age (`!age || isNaN(age)` on the `parseInt` result).  Returns the first error
message, or `none` when the block passes. -/
def validateRecipient (r : RecipientForm) : Option String :=
  if r.gender = "" then
    some "Please select a gender for all care recipients"
  else if r.full_name = "" then
    some "Full name is required for all care recipients"
  else if r.email = "" then
    some "Email is required for all care recipients"
  else if r.phone_number = "" ∨ r.phone_number.length ≠ 10 then
    some "Valid 10-digit phone number is required for all care recipients"
  else if jsFalsyInt (jsParseInt r.ageValue) || jsIsNaN (jsParseInt r.ageValue) then
    some "Valid age is required for all care recipients"
  else none

/-- The `recipientDivs.forEach` loop with its
`if (validationError) return` short-circuit: the first failing block's message
wins and later blocks are not validated. -/
def firstValidationError : List RecipientForm → Option String
  | [] => none
  | r :: rs =>
      match validateRecipient r with
      | some e => some e
      | none => firstValidationError rs

/-- The phone test of the recipient validator, as a rejection predicate:
`!recipient.phone_number || recipient.phone_number.length !== 10`. -/
def phoneRejected (s : String) : Bool :=
  (s == "") || (s.length != 10)

/-- Main caretaker fields of the signup form. -/
structure CaretakerForm where
  full_name : String
  email : String
  username : String
  phone_number : String
  password : String
deriving Repr, DecidableEq

/-- Result of the submit handler up to the first network request: either a
thrown validation error (surfaced as a blocking alert, no fetch issued) or the
`POST /api/signup` call with the collected payload. -/
inductive SubmitOutcome where
  | blocked (msg : String)
  | networkCall (caretaker : CaretakerForm) (recipients : List RecipientForm)
deriving Repr, DecidableEq

/-- The registration submit handler before any fetch: the caretaker
required-fields guard, then the recipient validation loop; only when both pass
is the signup request issued. -/
def submitRegistration (c : CaretakerForm) (rs : List RecipientForm) :
    SubmitOutcome :=
  if c.full_name = "" ∨ c.email = "" ∨ c.username = "" ∨ c.phone_number = "" ∨
      c.password = "" then
    SubmitOutcome.blocked "Please fill out all the main caretaker fields."
  else
    match firstValidationError rs with
    | some e => SubmitOutcome.blocked e
    | none => SubmitOutcome.networkCall c rs

def sampleCaretaker : CaretakerForm :=
  { full_name := "Care Taker", email := "ct@example.com", username := "caretaker",
    phone_number := "0123456789", password := "pw12345" }

/-- A recipient block whose phone number is the five-character "12345". -/
def phoneShortRecipient : RecipientForm :=
  { full_name := "Rec One", email := "rec@example.com", phone_number := "12345",
    ageValue := "30", gender := "female", condition := "false" }

/-- A fully valid recipient block except that the age field holds "-3". -/
def negativeAgeRecipient : RecipientForm :=
  { full_name := "Rec Two", email := "rec2@example.com",
    phone_number := "9876543210", ageValue := "-3", gender := "male",
    condition := "false" }

/-- A recipient block with no gender selected. -/
def missingGenderRecipient : RecipientForm :=
  { full_name := "Rec Three", email := "rec3@example.com",
    phone_number := "1112223334", ageValue := "40", gender := "",
    condition := "" }

/-! ### Registration form: per-recipient report uploads -/

/-- The post-signup upload loop
`for (let i = 0; i < recipientDivsAfter.length && i < createdRecipients.length; i++)`:
`forms` lists, per recipient block on the page, the attached report file (if
any, as an abstract tag); `created` lists the server-returned recipient ids in
order.  Produces the list of `(block index, recipient id)` pairs for which an
upload request is issued, starting at block index `k`. -/
def uploadLoopFrom (k : Nat) :
    List (Option Nat) → List Nat → List (Nat × Nat)
  | [], _ => []
  | _, [] => []
  | f :: fs, c :: cs =>
      (match f with
       | some _ => [(k, c)]
       | none => []) ++ uploadLoopFrom (k + 1) fs cs

/-- The uploads issued by the post-signup loop. -/
def reportUploads (forms : List (Option Nat)) (created : List Nat) :
    List (Nat × Nat) :=
  uploadLoopFrom 0 forms created

/-! ### Fall detection: status polling -/

/-- One response of `GET /api/fall-detection/status/{processId}` as consumed by
`pollProcessingStatus` (`ok` is the HTTP-success flag of the fetch). -/
structure StatusResponse where
  ok : Bool
  status : String
  progress : Nat
  message : String
deriving Repr, DecidableEq

/-- `pollProcessingStatus` schedules the next poll
(`setTimeout(() => pollProcessingStatus(processId), 2000)`) only when the fetch
succeeded and the status is neither "completed" nor "error"; a failed fetch or
an "error" status throws into `showError` and a "completed" status moves to
`showProcessingResults`. -/
def continuesPolling (r : StatusResponse) : Bool :=
  r.ok && !(r.status == "completed") && !(r.status == "error")

/-- Whether the `k`-th status request is issued, given the response each
request would receive: the first request always runs, and each later one only
if its predecessor ran and told the loop to continue. -/
def pollOccurs (resp : Nat → StatusResponse) : Nat → Bool
  | 0 => true
  | k + 1 => pollOccurs resp k && continuesPolling (resp k)

/-- Whether the results endpoint is fetched right after the `k`-th poll
(`showProcessingResults` runs exactly when that poll happened, its fetch was ok
and it reported "completed"). -/
def resultsFetchedAt (resp : Nat → StatusResponse) (k : Nat) : Bool :=
  pollOccurs resp k && (resp k).ok && ((resp k).status == "completed")

/-- The poll interval (source: `setTimeout(..., 2000)`). -/
def POLL_INTERVAL_MS : Nat := 2000

/-- Milliseconds after the first status request at which the `k`-th request is
issued (each continuation is scheduled one interval after its predecessor). -/
def pollTime (k : Nat) : Nat := k * POLL_INTERVAL_MS

/-- The status-response sequence of the specification scenario:
`{status:"processing", progress:40}` then `{status:"completed"}`. -/
def scenarioResp : Nat → StatusResponse := fun k =>
  if k = 0 then ⟨true, "processing", 40, "Processing..."⟩
  else ⟨true, "completed", 100, "Done"⟩

/-! ## Theorems -/

/-! ### The detected-event list (C2, C3) -/

theorem trimTo10_eq_take_of_le {α : Type} :
    ∀ (n : ℕ) (l : List α), l.length ≤ n → trimTo10 l = l.take 10 := by
  intro n
  induction n with
  | zero =>
    intro l hl
    rw [trimTo10, dif_neg (by omega)]
    exact (List.take_of_length_le (by omega)).symm
  | succ n ih =>
    intro l hl
    rw [trimTo10]
    by_cases h : 10 < l.length
    · rw [dif_pos h, ih l.dropLast (by simp only [List.length_dropLast]; omega),
        List.dropLast_eq_take, List.take_take]
      congr 1
      omega
    · rw [dif_neg h]
      exact (List.take_of_length_le (by omega)).symm

/-- The eviction loop keeps exactly the first ten entries. -/
theorem trimTo10_eq_take {α : Type} (l : List α) : trimTo10 l = l.take 10 :=
  trimTo10_eq_take_of_le l.length l le_rfl

theorem addDetectedEvent_eq_take (e : DetEvent) (l : List DetEvent) :
    addDetectedEvent e l = (e :: l).take 10 :=
  trimTo10_eq_take (e :: l)

theorem addAllEvents_concat (evs : List DetEvent) (e : DetEvent) :
    addAllEvents (evs ++ [e]) = addDetectedEvent e (addAllEvents evs) := by
  simp [addAllEvents, List.foldl_append]

theorem addAllEvents_length_le (evs : List DetEvent) :
    (addAllEvents evs).length ≤ 10 := by
  suffices h : ∀ (evs : List DetEvent) (l : List DetEvent), l.length ≤ 10 →
      (evs.foldl (fun l e => addDetectedEvent e l) l).length ≤ 10 by
    exact h evs [] (by simp)
  intro evs
  induction evs with
  | nil => intro l hl; simpa using hl
  | cons e evs ih =>
    intro l hl
    simp only [List.foldl_cons]
    exact ih _ (by rw [addDetectedEvent_eq_take]; simp)

/-- C3: after any sequence of `addDetectedEvent` operations the detected-event
list holds at most 10 entries, and the most recently added event is at
index 0. -/
theorem c3_event_list_capacity_and_order (evs : List DetEvent) :
    (addAllEvents evs).length ≤ 10 ∧
      ∀ e : DetEvent, (addAllEvents (evs ++ [e])).head? = some e := by
  refine ⟨addAllEvents_length_le evs, fun e => ?_⟩
  rw [addAllEvents_concat, addDetectedEvent_eq_take]
  rfl

/-! ### Audio monitor: the threshold / debounce characterization (C1, C2) -/

theorem det_thr_le_alert_thr : DETECTION_THRESHOLD ≤ ALERT_THRESHOLD := by decide

theorem applyPendingTimeout_lastCallTime (st : DetState) (t : Nat) :
    (applyPendingTimeout st t).lastCallTime = st.lastCallTime := by
  rcases h : st.lastCallTime with _ | tc
  · simp [applyPendingTimeout, h]
  · simp only [applyPendingTimeout, h]
    split <;> first | rfl | exact h

theorem applyPendingTimeout_eventsAppended (st : DetState) (t : Nat) :
    (applyPendingTimeout st t).eventsAppended = st.eventsAppended := by
  rcases h : st.lastCallTime with _ | tc
  · simp [applyPendingTimeout, h]
  · simp only [applyPendingTimeout, h]
    split <;> rfl

theorem applyPendingTimeout_cases (st : DetState) (t : Nat) :
    applyPendingTimeout st t = st ∨
      ((applyPendingTimeout st t).detectionActive = false ∧
        (applyPendingTimeout st t).detectionStartTime = none ∧
        ∃ tc, st.lastCallTime = some tc ∧ tc + 2000 ≤ t) := by
  rcases h : st.lastCallTime with _ | tc
  · left
    simp [applyPendingTimeout, h]
  · simp only [applyPendingTimeout, h]
    by_cases h2 : tc + 2000 ≤ t
    · rw [if_pos h2]
      exact Or.inr ⟨rfl, rfl, tc, rfl, h2⟩
    · rw [if_neg h2]
      exact Or.inl rfl

theorem callbackStep_not_detected (st : DetState) (label : String) (t : Nat)
    (s : ℚ) (h : ¬ DETECTION_THRESHOLD ≤ s) :
    (callbackStep st label t s).state = applyPendingTimeout st t ∧
      (callbackStep st label t s).detected = false ∧
      (callbackStep st label t s).alerted = false := by
  unfold callbackStep
  rw [if_neg h]
  exact ⟨rfl, rfl, rfl⟩

theorem callbackStep_alerted_eq (st : DetState) (label : String) (t : Nat)
    (s : ℚ) (h : DETECTION_THRESHOLD ≤ s) :
    (callbackStep st label t s).alerted =
      alertFires (applyPendingTimeout st t) t s := by
  unfold callbackStep handleDetection
  rw [if_pos h]

theorem callbackStep_fires (st : DetState) (label : String) (t : Nat) (s : ℚ)
    (h : DETECTION_THRESHOLD ≤ s)
    (hf : alertFires (applyPendingTimeout st t) t s = true) :
    (callbackStep st label t s).state.detectionActive = true ∧
      (callbackStep st label t s).state.detectionStartTime = some t ∧
      (callbackStep st label t s).state.lastCallTime = some t ∧
      (callbackStep st label t s).state.eventsAppended =
        (applyPendingTimeout st t).eventsAppended + 1 := by
  simp [callbackStep, handleDetection, h, hf]

theorem callbackStep_no_fire (st : DetState) (label : String) (t : Nat) (s : ℚ)
    (h : DETECTION_THRESHOLD ≤ s)
    (hf : alertFires (applyPendingTimeout st t) t s = false) :
    (callbackStep st label t s).state.detectionActive =
        (applyPendingTimeout st t).detectionActive ∧
      (callbackStep st label t s).state.detectionStartTime =
        (applyPendingTimeout st t).detectionStartTime ∧
      (callbackStep st label t s).state.lastCallTime = some t ∧
      (callbackStep st label t s).state.eventsAppended =
        (applyPendingTimeout st t).eventsAppended := by
  simp [callbackStep, handleDetection, h, hf]

theorem detectedAt_iff (label : String) (tr : Nat → Nat × ℚ) (i : Nat) :
    detectedAt label tr i = true ↔ DETECTION_THRESHOLD ≤ (tr i).2 := by
  by_cases h : DETECTION_THRESHOLD ≤ (tr i).2 <;>
    simp [detectedAt, callbackStep, h]

theorem detInv_zero (label : String) (tr : Nat → Nat × ℚ) : DetInv label tr 0 := by
  refine ⟨?_, ?_, ?_⟩
  · intro h
    simp [detStateAt, initDetState] at h
  · intro _ j hj _
    exact absurd hj (Nat.not_lt_zero j)
  · intro j hj _
    exact absurd hj (Nat.not_lt_zero j)

theorem detInv_succ (label : String) (tr : Nat → Nat × ℚ) (hm : TraceMono tr)
    (n : Nat) (ih : DetInv label tr n) : DetInv label tr (n + 1) := by
  obtain ⟨ihA, ihB, ihC⟩ := ih
  have hS : detStateAt label tr (n + 1) =
      (callbackStep (detStateAt label tr n) label (tr n).1 (tr n).2).state := rfl
  have hAl : alertAt label tr n =
      (callbackStep (detStateAt label tr n) label (tr n).1 (tr n).2).alerted := rfl
  by_cases hdet : DETECTION_THRESHOLD ≤ (tr n).2
  · by_cases hfire : alertFires (applyPendingTimeout (detStateAt label tr n)
        (tr n).1) (tr n).1 (tr n).2 = true
    · -- the alert fired at callback n
      have hstep := callbackStep_fires (detStateAt label tr n) label (tr n).1
        (tr n).2 hdet hfire
      have haln : alertAt label tr n = true := by
        rw [hAl, callbackStep_alerted_eq _ _ _ _ hdet]
        exact hfire
      refine ⟨?_, ?_, ?_⟩
      · intro _
        refine ⟨n, by omega, haln, ?_, ?_⟩
        · rw [hS]
          exact hstep.2.1
        · intro k hk1 hk2
          omega
      · intro hact
        rw [hS, hstep.1] at hact
        simp at hact
      · intro j hj _
        refine ⟨(tr n).1, ?_, hm j n (by omega)⟩
        rw [hS]
        exact hstep.2.2.1
    · -- handleDetection ran but the alert guard failed
      have hfire' : alertFires (applyPendingTimeout (detStateAt label tr n)
          (tr n).1) (tr n).1 (tr n).2 = false := by
        simpa using hfire
      have hstep := callbackStep_no_fire (detStateAt label tr n) label (tr n).1
        (tr n).2 hdet hfire'
      have haln : alertAt label tr n = false := by
        rw [hAl, callbackStep_alerted_eq _ _ _ _ hdet]
        exact hfire'
      refine ⟨?_, ?_, ?_⟩
      · intro hact
        rw [hS, hstep.1] at hact
        rcases applyPendingTimeout_cases (detStateAt label tr n) (tr n).1 with
          hto | ⟨hf0, _, _⟩
        · rw [hto] at hact
          obtain ⟨j, hj, haj, hstart, hnone⟩ := ihA hact
          refine ⟨j, by omega, haj, ?_, ?_⟩
          · rw [hS, hstep.2.1, hto]
            exact hstart
          · intro k hk1 hk2
            rcases Nat.lt_or_ge k n with hk | hk
            · exact hnone k hk1 hk
            · have hkn : k = n := by omega
              subst hkn
              exact haln
        · rw [hf0] at hact
          simp at hact
      · intro hact j hj haj
        rw [hS, hstep.1] at hact
        have hjn : j < n := by
          rcases Nat.lt_or_ge j n with h | h
          · exact h
          · have hj' : j = n := by omega
            subst hj'
            rw [haln] at haj
            simp at haj
        rcases applyPendingTimeout_cases (detStateAt label tr n) (tr n).1 with
          hto | ⟨_, _, tc, htc, htcle⟩
        · rw [hto] at hact
          obtain ⟨m, hm1, hm2⟩ := ihB hact j hjn haj
          exact ⟨m, by omega, hm2⟩
        · obtain ⟨tc', htc', hle⟩ := ihC j hjn haj
          have heq : tc' = tc := Option.some.inj (htc'.symm.trans htc)
          refine ⟨n, by omega, by omega⟩
      · intro j hj haj
        have hjn : j ≤ n := by omega
        refine ⟨(tr n).1, ?_, hm j n hjn⟩
        rw [hS]
        exact hstep.2.2.1
  · -- score below the detection threshold: handleDetection is not invoked
    have hstep := callbackStep_not_detected (detStateAt label tr n) label
      (tr n).1 (tr n).2 hdet
    have haln : alertAt label tr n = false := by
      rw [hAl]
      exact hstep.2.2
    refine ⟨?_, ?_, ?_⟩
    · intro hact
      rw [hS, hstep.1] at hact
      rcases applyPendingTimeout_cases (detStateAt label tr n) (tr n).1 with
        hto | ⟨hf0, _, _⟩
      · rw [hto] at hact
        obtain ⟨j, hj, haj, hstart, hnone⟩ := ihA hact
        refine ⟨j, by omega, haj, ?_, ?_⟩
        · rw [hS, hstep.1, hto]
          exact hstart
        · intro k hk1 hk2
          rcases Nat.lt_or_ge k n with hk | hk
          · exact hnone k hk1 hk
          · have hkn : k = n := by omega
            subst hkn
            exact haln
      · rw [hf0] at hact
        simp at hact
    · intro hact j hj haj
      rw [hS, hstep.1] at hact
      have hjn : j < n := by
        rcases Nat.lt_or_ge j n with h | h
        · exact h
        · have hj' : j = n := by omega
          subst hj'
          rw [haln] at haj
          simp at haj
      rcases applyPendingTimeout_cases (detStateAt label tr n) (tr n).1 with
        hto | ⟨_, _, tc, htc, htcle⟩
      · rw [hto] at hact
        obtain ⟨m, hm1, hm2⟩ := ihB hact j hjn haj
        exact ⟨m, by omega, hm2⟩
      · obtain ⟨tc', htc', hle⟩ := ihC j hjn haj
        have heq : tc' = tc := Option.some.inj (htc'.symm.trans htc)
        refine ⟨n, by omega, by omega⟩
    · intro j hj haj
      have hjn : j < n := by
        rcases Nat.lt_or_ge j n with h | h
        · exact h
        · have hj' : j = n := by omega
          subst hj'
          rw [haln] at haj
          simp at haj
      obtain ⟨tc, hlc, hle⟩ := ihC j hjn haj
      refine ⟨tc, ?_, hle⟩
      rw [hS, hstep.1, applyPendingTimeout_lastCallTime]
      exact hlc

theorem detInv_all (label : String) (tr : Nat → Nat × ℚ) (hm : TraceMono tr) :
    ∀ n, DetInv label tr n
  | 0 => detInv_zero label tr
  | n + 1 => detInv_succ label tr hm n (detInv_all label tr hm n)

theorem alertAt_iff_spec (label : String) (tr : Nat → Nat × ℚ)
    (hm : TraceMono tr) (i : Nat) :
    alertAt label tr i = true ↔
      (ALERT_THRESHOLD ≤ (tr i).2 ∧
        ∀ j, j < i → alertAt label tr j = true →
          (1000 : ℤ) < ((tr i).1 : ℤ) - ((tr j).1 : ℤ)) := by
  obtain ⟨invA, invB, invC⟩ := detInv_all label tr hm i
  have hAl : alertAt label tr i =
      (callbackStep (detStateAt label tr i) label (tr i).1 (tr i).2).alerted := rfl
  by_cases hdet : DETECTION_THRESHOLD ≤ (tr i).2
  · rw [hAl, callbackStep_alerted_eq _ _ _ _ hdet]
    by_cases hact : (applyPendingTimeout (detStateAt label tr i)
        (tr i).1).detectionActive = true
    · -- the label is inside its debounce window
      have hto : applyPendingTimeout (detStateAt label tr i) (tr i).1 =
          detStateAt label tr i := by
        rcases applyPendingTimeout_cases (detStateAt label tr i) (tr i).1 with
          h | ⟨hf0, _, _⟩
        · exact h
        · rw [hf0] at hact
          simp at hact
      rw [hto] at hact
      obtain ⟨j, hj, haj, hstart, hnone⟩ := invA hact
      unfold alertFires
      rw [hto, hact, hstart]
      simp only [Option.getD_some, Bool.not_true, Bool.false_or,
        Bool.and_eq_true, decide_eq_true_eq]
      constructor
      · rintro ⟨h1, h2⟩
        refine ⟨h1, fun k hk hak => ?_⟩
        have hkj : k ≤ j := by
          by_contra hkj
          exact absurd hak (by simp [hnone k (by omega) hk])
        have hlt : (tr k).1 ≤ (tr j).1 := hm k j hkj
        omega
      · rintro ⟨h1, h2⟩
        exact ⟨h1, by have := h2 j hj haj; omega⟩
    · -- no debounce window is open: every past alert is at least 2000 ms old
      have hact' : (applyPendingTimeout (detStateAt label tr i)
          (tr i).1).detectionActive = false := by
        simpa using hact
      have hgap : ∀ j, j < i → alertAt label tr j = true →
          (1000 : ℤ) < ((tr i).1 : ℤ) - ((tr j).1 : ℤ) := by
        intro j hj haj
        rcases applyPendingTimeout_cases (detStateAt label tr i) (tr i).1 with
          hto | ⟨_, _, tc, htc, htcle⟩
        · rw [hto] at hact'
          obtain ⟨m, hm1, hm2⟩ := invB hact' j hj haj
          have hmi : (tr m).1 ≤ (tr i).1 := hm m i (by omega)
          omega
        · obtain ⟨tc', htc', hle⟩ := invC j hj haj
          have heq : tc' = tc := Option.some.inj (htc'.symm.trans htc)
          omega
      unfold alertFires
      rw [hact']
      simp only [Bool.not_false, Bool.true_or, Bool.and_true, decide_eq_true_eq]
      exact ⟨fun h1 => ⟨h1, hgap⟩, And.left⟩
  · -- below the detection threshold no alert can fire
    have hstep := callbackStep_not_detected (detStateAt label tr i) label
      (tr i).1 (tr i).2 hdet
    rw [hAl, hstep.2.2]
    constructor
    · intro h
      simp at h
    · rintro ⟨h1, _⟩
      exact absurd (le_trans det_thr_le_alert_thr h1) hdet

/-- C1: for every classifier callback score `s` of a tracked label, the
detection pipeline (`handleDetection`) fires iff `s ≥ 0.78`, and the intrusive
alert fires iff `s ≥ 0.90` and no alert for the same label fired within the
prior 1000 ms (every earlier alert lies strictly more than 1000 ms in the
past). -/
theorem c1_thresholds_and_debounce (label : String) (tr : Nat → Nat × ℚ)
    (hm : TraceMono tr) (i : Nat) :
    (detectedAt label tr i = true ↔ DETECTION_THRESHOLD ≤ (tr i).2) ∧
      (alertAt label tr i = true ↔
        (ALERT_THRESHOLD ≤ (tr i).2 ∧
          ∀ j, j < i → alertAt label tr j = true →
            (1000 : ℤ) < ((tr i).1 : ℤ) - ((tr j).1 : ℤ))) :=
  ⟨detectedAt_iff label tr i, alertAt_iff_spec label tr hm i⟩

/-- C1 witness: on the concrete 0.95-score trace the first callback both
detects and alerts. -/
theorem c1_witness :
    detectedAt "cough" alertTrace 0 = true ∧ alertAt "cough" alertTrace 0 = true := by
  have hm : TraceMono alertTrace := by
    intro m n h
    simp only [alertTrace]
    omega
  have h := c1_thresholds_and_debounce "cough" alertTrace hm 0
  refine ⟨h.1.mpr (by decide), h.2.mpr ⟨by decide, ?_⟩⟩
  intro j hj
  exact absurd hj (Nat.not_lt_zero j)

theorem appendedAt_eq_alertAt (label : String) (tr : Nat → Nat × ℚ) (n : Nat) :
    appendedAt label tr n = alertAt label tr n := by
  have hS : detStateAt label tr (n + 1) =
      (callbackStep (detStateAt label tr n) label (tr n).1 (tr n).2).state := rfl
  have hAl : alertAt label tr n =
      (callbackStep (detStateAt label tr n) label (tr n).1 (tr n).2).alerted := rfl
  by_cases hdet : DETECTION_THRESHOLD ≤ (tr n).2
  · by_cases hfire : alertFires (applyPendingTimeout (detStateAt label tr n)
        (tr n).1) (tr n).1 (tr n).2 = true
    · have hstep := callbackStep_fires (detStateAt label tr n) label (tr n).1
        (tr n).2 hdet hfire
      have haln : alertAt label tr n = true := by
        rw [hAl, callbackStep_alerted_eq _ _ _ _ hdet]
        exact hfire
      rw [haln]
      simp only [appendedAt]
      rw [hS, hstep.2.2.2, applyPendingTimeout_eventsAppended]
      simp
    · have hfire' : alertFires (applyPendingTimeout (detStateAt label tr n)
          (tr n).1) (tr n).1 (tr n).2 = false := by
        simpa using hfire
      have hstep := callbackStep_no_fire (detStateAt label tr n) label (tr n).1
        (tr n).2 hdet hfire'
      have haln : alertAt label tr n = false := by
        rw [hAl, callbackStep_alerted_eq _ _ _ _ hdet]
        exact hfire'
      rw [haln]
      simp only [appendedAt]
      rw [hS, hstep.2.2.2, applyPendingTimeout_eventsAppended]
      simp
  · have hstep := callbackStep_not_detected (detStateAt label tr n) label
      (tr n).1 (tr n).2 hdet
    have haln : alertAt label tr n = false := by
      rw [hAl]
      exact hstep.2.2
    rw [haln]
    simp only [appendedAt]
    rw [hS, hstep.1, applyPendingTimeout_eventsAppended]
    simp

/-- C2 counterexample: at a 0.85 score (above the 0.78 detection threshold) the
alert-capable variant invokes the detection pipeline but appends no
`DetEvent`, because `addDetectedEvent` is called only inside the ≥ 0.90 alert
branch of `handleDetection`. -/
theorem c2_counterexample :
    DETECTION_THRESHOLD ≤ (midScoreTrace 0).2 ∧
      detectedAt "cough" midScoreTrace 0 = true ∧
      appendedAt "cough" midScoreTrace 0 = false := by
  refine ⟨by decide, by decide, by decide⟩

/-- C2 amended: in the simple variant a `DetEvent` is logged exactly when the
top score reaches the 0.78 detection threshold, while in the alert-capable
variant a `DetEvent` is appended exactly when the intrusive alert fires (score
at least 0.90 outside the debounce window), so scores in `[0.78, 0.90)` log no
event there. -/
theorem c2_event_append_characterization :
    (∀ q : ℚ, simpleVariantLogs q = true ↔ DETECTION_THRESHOLD ≤ q) ∧
      (∀ (label : String) (tr : Nat → Nat × ℚ) (n : Nat),
        appendedAt label tr n = alertAt label tr n) :=
  ⟨fun q => by simp [simpleVariantLogs], appendedAt_eq_alertAt⟩

/-! ### Media-stream lifecycle (C4, C5) -/

/-- C4: evaluating the stream-lifecycle model on the ordinary start-up path —
page load grants the `setupAudioProcessing` microphone stream, then one click
on Start Listening makes `toggleAudioMonitoring` acquire a second stream
without the first having been stopped — leaves the audio-monitor component
holding two concurrently active audio `MediaStream`s, violating the
at-most-one-per-kind invariant. -/
theorem c4_two_concurrent_audio_streams :
    activeAudioTracks (runAudio [AudioOp.initSetup, AudioOp.toggleClick]) = 2 ∧
      1 < activeAudioTracks (runAudio [AudioOp.initSetup, AudioOp.toggleClick]) := by
  refine ⟨by decide, by decide⟩

/-- C5: evaluating the model on page load, Start, then Stop: the stop branch of
`toggleAudioMonitoring` closes the `AudioContext` but stops no
`MediaStreamTrack` (it only runs `microphone.disconnect()`), so two live audio
tracks remain although the claim requires zero. -/
theorem c5_stop_leaves_live_tracks :
    (runAudio [AudioOp.initSetup, AudioOp.toggleClick, AudioOp.toggleClick]).isListening = false ∧
      (runAudio [AudioOp.initSetup, AudioOp.toggleClick, AudioOp.toggleClick]).contextClosed = true ∧
      activeAudioTracks
        (runAudio [AudioOp.initSetup, AudioOp.toggleClick, AudioOp.toggleClick]) = 2 := by
  refine ⟨by decide, by decide, by decide⟩

/-! ### Face registration (C9) -/

/-- C9: when the detection race times out (no result within the 20000 ms
bound), `captureFace` reports the timeout-specific status message, which
differs from the no-face message, and the `finally` block always re-enables
the capture button and restores its label — it is never left disabled reading
`Detecting...`. -/
theorem c9_timeout_recovery (st : FaceRegState)
    (hloaded : st.modelsLoaded = true) (hnotyet : st.isFaceCaptured = false) :
    (captureFace st CaptureOutcome.timedOut).statusMsg = timeoutStatusMsg ∧
      timeoutStatusMsg ≠ noFaceStatusMsg ∧
      (captureFace st CaptureOutcome.timedOut).captureDisabled = false ∧
      (captureFace st CaptureOutcome.timedOut).captureLabel = "📷 Capture Face" ∧
      FACE_DETECTION_TIMEOUT_MS = 20000 := by
  have hml : ¬ st.modelsLoaded = false := by simp [hloaded]
  refine ⟨?_, by decide, ?_, ?_, rfl⟩ <;>
    simp [captureFace, hml, hnotyet]

/-- C9 witness: the ready-to-capture state recovers from a timeout. -/
theorem c9_witness :
    (captureFace faceRegReady CaptureOutcome.timedOut).captureDisabled = false :=
  (c9_timeout_recovery faceRegReady rfl rfl).2.2.1

/-! ### Registration form validation (C6, C7) -/

theorem validateRecipient_some_of_phone (r : RecipientForm)
    (h : r.phone_number.length ≠ 10) : ∃ e, validateRecipient r = some e := by
  unfold validateRecipient
  split_ifs with h1 h2 h3 h4 h5
  · exact ⟨_, rfl⟩
  · exact ⟨_, rfl⟩
  · exact ⟨_, rfl⟩
  · exact ⟨_, rfl⟩
  · exact ⟨_, rfl⟩
  · exact absurd (Or.inr h) h4

theorem firstValidationError_isSome_of_mem (rs : List RecipientForm)
    (r : RecipientForm) (hr : r ∈ rs) (e : String)
    (he : validateRecipient r = some e) :
    ∃ e', firstValidationError rs = some e' := by
  induction rs with
  | nil => cases hr
  | cons r0 rs ih =>
    rcases List.mem_cons.mp hr with h0 | h0
    · subst h0
      exact ⟨e, by simp [firstValidationError, he]⟩
    · simp only [firstValidationError]
      rcases h1 : validateRecipient r0 with _ | e0
      · exact ih h0
      · exact ⟨e0, rfl⟩

theorem submit_blocked_of_invalid_phone (c : CaretakerForm)
    (rs : List RecipientForm) (r : RecipientForm) (hr : r ∈ rs)
    (h : r.phone_number.length ≠ 10) :
    ∀ (c' : CaretakerForm) (rs' : List RecipientForm),
      submitRegistration c rs ≠ SubmitOutcome.networkCall c' rs' := by
  intro c' rs' hcall
  obtain ⟨e, he⟩ := validateRecipient_some_of_phone r h
  obtain ⟨e', he'⟩ := firstValidationError_isSome_of_mem rs r hr e he
  unfold submitRegistration at hcall
  rw [he'] at hcall
  split_ifs at hcall

/-- C6 counterexample: "abcdefghij" has length 10 but contains no digit, yet
the phone check accepts it — validation does not reject strings containing
non-digits, contrary to the claim. -/
theorem c6_counterexample :
    phoneRejected "abcdefghij" = false ∧
      "abcdefghij".toList.all Char.isDigit = false := by
  refine ⟨by decide, by decide⟩

/-- C6 amended: the phone check accepts exactly the strings of length 10
(digits are not checked); any submission containing a recipient block with a
phone of a different length is blocked before the signup network call, and in
the scenario with phone "12345" (other fields valid) the surfaced error is the
exact 'Valid 10-digit phone number' message. -/
theorem c6_phone_validation :
    (∀ s : String, phoneRejected s = false ↔ s.length = 10) ∧
      (∀ (c : CaretakerForm) (rs : List RecipientForm) (r : RecipientForm),
        r ∈ rs → r.phone_number.length ≠ 10 →
          ∀ (c' : CaretakerForm) (rs' : List RecipientForm),
            submitRegistration c rs ≠ SubmitOutcome.networkCall c' rs') ∧
      submitRegistration sampleCaretaker [phoneShortRecipient] =
        SubmitOutcome.blocked
          "Valid 10-digit phone number is required for all care recipients" := by
  refine ⟨?_, ?_, by decide⟩
  · intro s
    constructor
    · intro h
      simp only [phoneRejected, Bool.or_eq_false_iff, beq_eq_false_iff_ne,
        bne_eq_false_iff_eq] at h
      exact h.2
    · intro h
      simp only [phoneRejected, Bool.or_eq_false_iff, beq_eq_false_iff_ne,
        bne_eq_false_iff_eq, ne_eq]
      refine ⟨?_, h⟩
      intro hs
      rw [hs] at h
      exact absurd h (by decide)
  · intro c rs r hr h c' rs'
    exact submit_blocked_of_invalid_phone c rs r hr h c' rs'

/-- C6 witness: the "12345"-phone submission is indeed not sent to the
network. -/
theorem c6_witness :
    submitRegistration sampleCaretaker [phoneShortRecipient] ≠
      SubmitOutcome.networkCall sampleCaretaker [phoneShortRecipient] :=
  c6_phone_validation.2.1 sampleCaretaker [phoneShortRecipient]
    phoneShortRecipient (List.mem_singleton.mpr rfl) (by decide)
    sampleCaretaker [phoneShortRecipient]

theorem validateRecipient_eq_none_iff (r : RecipientForm) :
    validateRecipient r = none ↔
      (r.gender ≠ "" ∧ r.full_name ≠ "" ∧ r.email ≠ "" ∧
        r.phone_number.length = 10 ∧
        ∃ n : ℤ, jsParseInt r.ageValue = some n ∧ n ≠ 0) := by
  unfold validateRecipient
  split_ifs with h1 h2 h3 h4 h5
  · simp [h1]
  · simp [h2]
  · simp [h3]
  · constructor
    · intro h
      cases h
    · rintro ⟨-, -, -, hlen, -⟩
      rcases h4 with h4 | h4
      · rw [h4] at hlen
        exact absurd hlen (by decide)
      · exact absurd hlen h4
  · constructor
    · intro h
      cases h
    · rintro ⟨-, -, -, -, n, hp, hn⟩
      rw [hp] at h5
      simp [jsFalsyInt, jsIsNaN] at h5
      exact hn h5
  · constructor
    · intro _
      push_neg at h4
      refine ⟨h1, h2, h3, h4.2, ?_⟩
      rcases hp : jsParseInt r.ageValue with _ | n
      · rw [hp] at h5
        simp [jsFalsyInt, jsIsNaN] at h5
      · refine ⟨n, rfl, ?_⟩
        rw [hp] at h5
        simp [jsFalsyInt, jsIsNaN] at h5
        exact h5
    · intro _
      rfl

theorem firstValidationError_first_wins (rs₁ : List RecipientForm)
    (r : RecipientForm) (rs₂ : List RecipientForm) (e : String)
    (hok : ∀ r' ∈ rs₁, validateRecipient r' = none)
    (he : validateRecipient r = some e) :
    firstValidationError (rs₁ ++ r :: rs₂) = some e := by
  induction rs₁ with
  | nil =>
    simp only [List.nil_append, firstValidationError, he]
  | cons r0 rs ih =>
    have h0 : validateRecipient r0 = none := hok r0 (by simp)
    simp only [List.cons_append, firstValidationError, h0]
    exact ih (fun r' hr' => hok r' (by simp [hr']))

/-- C7 counterexample: a recipient block whose age field holds "-3" passes
validation although -3 is not a positive numeric value — the age check
`!age || isNaN(age)` only rejects a `NaN` or zero `parseInt` result. -/
theorem c7_counterexample :
    validateRecipient negativeAgeRecipient = none ∧
      jsParseInt negativeAgeRecipient.ageValue = some (-3) ∧ (-3 : ℤ) < 0 := by
  refine ⟨by decide, by decide, by decide⟩

/-- C7 amended: a recipient block passes validation iff its gender, name and
email are non-empty, its phone number has length exactly 10, and its age
parses (JS `parseInt`) to a nonzero number — negative ages are accepted; only
the first failing block's first error is reported, validation of the remaining
blocks stops. -/
theorem c7_validation_characterization :
    (∀ r : RecipientForm,
      validateRecipient r = none ↔
        (r.gender ≠ "" ∧ r.full_name ≠ "" ∧ r.email ≠ "" ∧
          r.phone_number.length = 10 ∧
          ∃ n : ℤ, jsParseInt r.ageValue = some n ∧ n ≠ 0)) ∧
      (∀ (rs₁ : List RecipientForm) (r : RecipientForm)
          (rs₂ : List RecipientForm) (e : String),
        (∀ r' ∈ rs₁, validateRecipient r' = none) →
          validateRecipient r = some e →
            firstValidationError (rs₁ ++ r :: rs₂) = some e) :=
  ⟨validateRecipient_eq_none_iff, firstValidationError_first_wins⟩

/-- C7 witness: with a passing first block and a gender-less second block the
reported error is exactly the gender message of the second block. -/
theorem c7_witness :
    firstValidationError
        ([negativeAgeRecipient] ++ missingGenderRecipient :: []) =
      some "Please select a gender for all care recipients" :=
  c7_validation_characterization.2 [negativeAgeRecipient]
    missingGenderRecipient [] "Please select a gender for all care recipients"
    (by decide) (by decide)

/-! ### Fall-detection status polling (C8) -/

/-- C8: for a job whose first `N` status responses are ok/"processing" and
whose `N`-th response is terminal ("completed" or "error"), the status
endpoint is polled exactly at indices `0..N` — one poll every
`POLL_INTERVAL_MS` (2000 ms) — and never afterwards; on completion the results
endpoint is fetched exactly once (right after poll `N`), and on error it is
never fetched. -/
theorem c8_poll_lifecycle (resp : Nat → StatusResponse) (N : Nat)
    (hpre : ∀ k, k < N → (resp k).ok = true ∧ (resp k).status = "processing")
    (hok : (resp N).ok = true)
    (hterm : (resp N).status = "completed" ∨ (resp N).status = "error") :
    (∀ k, k ≤ N → pollOccurs resp k = true) ∧
      (∀ k, N < k → pollOccurs resp k = false) ∧
      ((resp N).status = "completed" →
        ∀ k, (resultsFetchedAt resp k = true ↔ k = N)) ∧
      ((resp N).status = "error" → ∀ k, resultsFetchedAt resp k = false) ∧
      (∀ k, pollTime (k + 1) = pollTime k + POLL_INTERVAL_MS) := by
  have hPC : (("processing" : String) == "completed") = false := by decide
  have hPE : (("processing" : String) == "error") = false := by decide
  have hCC : (("completed" : String) == "completed") = true := by decide
  have hEC : (("error" : String) == "completed") = false := by decide
  have hcont : ∀ k, k < N → continuesPolling (resp k) = true := by
    intro k hk
    obtain ⟨h1, h2⟩ := hpre k hk
    simp [continuesPolling, h1, h2, hPC, hPE]
  have hpoll : ∀ k, k ≤ N → pollOccurs resp k = true := by
    intro k
    induction k with
    | zero => intro _; rfl
    | succ k ih =>
      intro hk
      simp only [pollOccurs, Bool.and_eq_true]
      exact ⟨ih (by omega), hcont k (by omega)⟩
  have hstopN : continuesPolling (resp N) = false := by
    rcases hterm with h | h <;> simp [continuesPolling, h]
  have hstop : ∀ k, N < k → pollOccurs resp k = false := by
    intro k
    induction k with
    | zero => intro h; omega
    | succ k ih =>
      intro hk
      rcases Nat.lt_or_ge N k with h | h
      · simp [pollOccurs, ih h]
      · have hkN : k = N := by omega
        subst hkN
        simp [pollOccurs, hstopN]
  refine ⟨hpoll, hstop, ?_, ?_, fun k => by simp [pollTime, POLL_INTERVAL_MS]; ring⟩
  · intro hc k
    constructor
    · intro h
      by_contra hne
      rcases Nat.lt_or_ge k N with hk | hk
      · have h2 := (hpre k hk).2
        simp [resultsFetchedAt, h2, hPC] at h
      · have hk' : N < k := by omega
        simp [resultsFetchedAt, hstop k hk'] at h
    · intro h
      subst h
      simp [resultsFetchedAt, hpoll _ le_rfl, hok, hc, hCC]
  · intro hc k
    rcases Nat.lt_or_ge k N with hk | hk
    · have h2 := (hpre k hk).2
      simp [resultsFetchedAt, h2, hPC]
    · rcases Nat.eq_or_lt_of_le hk with hk2 | hk2
      · rw [← hk2]
        simp [resultsFetchedAt, hc, hEC]
      · simp [resultsFetchedAt, hstop k hk2]

/-- C8 witness: the specification scenario (one "processing" response with
progress 40, then "completed") polls twice, fetches results after the second
poll, and never polls again. -/
theorem c8_witness :
    pollOccurs scenarioResp 1 = true ∧ pollOccurs scenarioResp 2 = false ∧
      resultsFetchedAt scenarioResp 1 = true := by
  have h := c8_poll_lifecycle scenarioResp 1 (by decide) (by decide)
    (Or.inl (by decide))
  exact ⟨h.1 1 le_rfl, h.2.1 2 (by omega), (h.2.2.1 (by decide) 1).mpr rfl⟩

/-! ### Report-upload loop (C10) -/

theorem uploadLoopFrom_mem (forms : List (Option Nat)) :
    ∀ (created : List Nat) (k i cid : Nat),
      ((i, cid) ∈ uploadLoopFrom k forms created ↔
        ∃ j : Nat, i = k + j ∧ (∃ f, forms[j]? = some (some f)) ∧
          created[j]? = some cid) := by
  induction forms with
  | nil =>
    intro created k i cid
    simp [uploadLoopFrom]
  | cons f fs ih =>
    intro created k i cid
    cases created with
    | nil => simp [uploadLoopFrom]
    | cons c cs =>
      rcases f with _ | ftag
      · simp only [uploadLoopFrom, List.nil_append, ih]
        constructor
        · rintro ⟨j, hj, hf, hc⟩
          refine ⟨j + 1, by omega, by simpa using hf, by simpa using hc⟩
        · rintro ⟨j, hj, ⟨f', hf⟩, hc⟩
          cases j with
          | zero => simp at hf
          | succ j =>
            exact ⟨j, by omega, ⟨f', by simpa using hf⟩, by simpa using hc⟩
      · simp only [uploadLoopFrom, List.singleton_append, List.mem_cons,
          Prod.mk.injEq, ih]
        constructor
        · rintro (⟨hik, hcid⟩ | ⟨j, hj, hf, hc⟩)
          · exact ⟨0, by omega, ⟨ftag, by simp⟩, by simp [hcid]⟩
          · exact ⟨j + 1, by omega, by simpa using hf, by simpa using hc⟩
        · rintro ⟨j, hj, ⟨f', hf⟩, hc⟩
          cases j with
          | zero =>
            left
            simp only [List.getElem?_cons_zero, Option.some.injEq] at hc
            exact ⟨by omega, hc.symm⟩
          | succ j =>
            right
            exact ⟨j, by omega, ⟨f', by simpa using hf⟩, by simpa using hc⟩

/-- C10: after a successful signup, a report upload is issued for block `i`
paired with the server-returned recipient id at index `i` exactly when block
`i` exists and has a file attached and index `i` is within the server-returned
recipient list; any block at or beyond the length of the returned list is
silently skipped even when it has a file attached. -/
theorem c10_upload_pairing (forms : List (Option Nat)) (created : List Nat)
    (i cid : Nat) :
    ((i, cid) ∈ reportUploads forms created ↔
      (∃ f, forms[i]? = some (some f)) ∧ created[i]? = some cid) ∧
      (created.length ≤ i → (i, cid) ∉ reportUploads forms created) := by
  have h := uploadLoopFrom_mem forms created 0 i cid
  have hiff : (i, cid) ∈ reportUploads forms created ↔
      (∃ f, forms[i]? = some (some f)) ∧ created[i]? = some cid := by
    rw [reportUploads, h]
    constructor
    · rintro ⟨j, hj, hf, hc⟩
      have hji : j = i := by omega
      subst hji
      exact ⟨hf, hc⟩
    · rintro ⟨hf, hc⟩
      exact ⟨i, by omega, hf, hc⟩
  refine ⟨hiff, ?_⟩
  intro hlen hmem
  obtain ⟨-, hc⟩ := hiff.mp hmem
  rw [List.getElem?_eq_none hlen] at hc
  cases hc

/-- C10 witness: with three blocks carrying files but only two created
recipients, the third block (index 2) is skipped. -/
theorem c10_witness :
    (2, 7) ∉ reportUploads [some 5, some 6, some 9] [10, 7] :=
  (c10_upload_pairing [some 5, some 6, some 9] [10, 7] 2 7).2 (by decide)
